import Mathlib

/-!
Shallow embedding of the two HTTP services of the repository:
a video-analysis service (Flask, `video_api.py`) with a key/model
fail-over loop, and an audio-inference service (FastAPI, `audio_api.py`)
with MFCC feature normalization.  Pure control flow is translated into
Lean functions; calls into external collaborators (the generative-AI
client, the feature extractor, the neural model) are passed in as
oracle parameters; machine floats are modelled by exact rationals; a
Python computation that may raise is modelled by `PyResult`.
-/

namespace ParkinsonApi

/-- Result of a Python computation: a returned value, or a raised
exception carrying its message string. -/
inductive PyResult (α : Type) where
  | ret (a : α)
  | raise (msg : String)
  deriving Repr, DecidableEq

/-- Containment of `needle` in `hay` as a contiguous run of characters,
modelling the Python `needle in hay` test on strings. -/
def listContains (needle : List Char) : List Char → Bool
  | [] => needle.isPrefixOf ([] : List Char)
  | c :: rest => needle.isPrefixOf (c :: rest) || listContains needle rest

/-- Python `needle in hay` on strings. -/
def strContains (hay needle : String) : Bool :=
  listContains needle.toList hay.toList

/-- Python `str.lower` (the substrings matched here are ASCII, where
`Char.toLower` agrees with Python). -/
def pyLower (s : String) : String :=
  String.mk (s.toList.map Char.toLower)

end ParkinsonApi

namespace VideoApi

open ParkinsonApi

/-- The model roster of `video_api.py` (`MODELS`). -/
def MODELS : List String := ["models/gemini-2.0-flash-exp", "models/gemini-1.5-pro"]

/-- The two process-wide cursors of `video_api.py`
(`current_key_index`, `current_model_index`). -/
structure GlobalState where
  current_key_index : Nat
  current_model_index : Nat
  deriving Repr, DecidableEq

/-- The function `switch_key` of `video_api.py`:
`current_key_index = (current_key_index + 1) % len(API_KEYS)`.
The pool size `len(API_KEYS)` is a parameter because the pool is
read from environment variables (between 1 and 5 non-empty keys,
or the single hardcoded fallback). -/
def switch_key (nKeys : Nat) (s : GlobalState) : GlobalState :=
  { s with current_key_index := (s.current_key_index + 1) % nKeys }

/-- The inlined model rotation of `analyze_video_logic`:
`current_model_index = (current_model_index + 1) % len(MODELS)`. -/
def switch_model (s : GlobalState) : GlobalState :=
  { s with current_model_index := (s.current_model_index + 1) % MODELS.length }

/-- Rate-limit classification of `analyze_video_logic`:
`"429" in error_msg or "Quota" in error_msg or "503" in error_msg`. -/
def isRateLimitMsg (msg : String) : Bool :=
  strContains msg "429" || strContains msg "Quota" || strContains msg "503"

/-- Not-found classification of `analyze_video_logic`:
`"404" in error_msg or "not found" in error_msg.lower()`. -/
def isNotFoundMsg (msg : String) : Bool :=
  strContains msg "404" || strContains (pyLower msg) "not found"

/-- Outcome of one `model.generate_content` call (plus the JSON parse
and the best-effort remote delete on the success path): parsed data,
or an exception message. -/
inductive GenOutcome (α : Type) where
  | ok (d : α)
  | err (msg : String)
  deriving Repr, DecidableEq

/-- What `analyze_video_logic` returns: parsed analysis data, or an
`{"error": msg}` payload. -/
inductive LoopResult (α : Type) where
  | ok (d : α)
  | errorPayload (msg : String)
  deriving Repr, DecidableEq

/-- The generic busy error returned when the attempt cap is exhausted. -/
def serverBusyMsg : String := "Server is busy. Please try again in 1 minute."

/-- Message of the Python `IndexError` that `MODELS[current_model_index]`
would raise were the cursor out of range (caught by the same `except`). -/
def indexErrorMsg : String := "list index out of range"

/-- One observed attempt of the fail-over loop: the loop variable
`attempt`, the cursor values the attempt ran with, and the seconds of
`time.sleep` executed after its failure (1 on the rate-limit branch,
0 otherwise). -/
structure AttemptRecord where
  attempt : Nat
  keyIdx : Nat
  modelIdx : Nat
  delayAfter : Nat
  deriving Repr, DecidableEq

/-- Cursor update of the rate-limit branch (CASE 1) of
`analyze_video_logic` at loop index `attempt`: `switch_key()`, then,
when `attempt % len(API_KEYS) == len(API_KEYS) - 1`, the model cursor
advances as well. -/
def rateLimitStep (nKeys attempt : Nat) (s : GlobalState) : GlobalState :=
  if attempt % nKeys = nKeys - 1 then switch_model (switch_key nKeys s)
  else switch_key nKeys s

/-- The `for attempt in range(20)` fail-over loop of
`analyze_video_logic`, from a given remaining-iteration count `fuel`
and loop-variable value `attempt`.  `script` gives the outcome of the
generation call at each attempt (it sees the current cursors, so a
scripted outcome may depend on the key and model in use).  Returns the
loop result, the final cursor state and the trace of attempts made. -/
def analyzeFrom {α : Type} (nKeys : Nat) (script : Nat → GlobalState → GenOutcome α) :
    Nat → Nat → GlobalState → LoopResult α × GlobalState × List AttemptRecord
  | 0, _, s => (.errorPayload serverBusyMsg, s, [])
  | fuel + 1, attempt, s =>
    if s.current_model_index < MODELS.length then
      match script attempt s with
      | .ok d => (.ok d, s, [⟨attempt, s.current_key_index, s.current_model_index, 0⟩])
      | .err msg =>
        if isRateLimitMsg msg then
          -- CASE 1: limit hit, switch key; after a full cycle, switch model; sleep 1
          let out := analyzeFrom nKeys script fuel (attempt + 1) (rateLimitStep nKeys attempt s)
          (out.1, out.2.1, ⟨attempt, s.current_key_index, s.current_model_index, 1⟩ :: out.2.2)
        else if isNotFoundMsg msg then
          -- CASE 2: model not found, switch model immediately, no delay
          let out := analyzeFrom nKeys script fuel (attempt + 1) (switch_model s)
          (out.1, out.2.1, ⟨attempt, s.current_key_index, s.current_model_index, 0⟩ :: out.2.2)
        else
          -- CASE 3: any other error aborts the loop at once
          (.errorPayload ("Analysis error: " ++ msg), s,
            [⟨attempt, s.current_key_index, s.current_model_index, 0⟩])
    else
      -- `MODELS[current_model_index]` raises IndexError inside the try;
      -- its message matches neither retry class, so the loop aborts.
      (.errorPayload ("Analysis error: " ++ indexErrorMsg), s,
        [⟨attempt, s.current_key_index, s.current_model_index, 0⟩])

/-- The `while video_file.state.name == "PROCESSING"` poll of
`analyze_video_logic`.  `get_file` gives the state returned by the
i-th `genai.get_file` call, which may raise; a raise propagates out
uncaught.  `fuel` bounds the embedding only: `.ret none` stands for a
poll still running after `fuel` rounds (the source loop is unbounded). -/
def pollFrom (get_file : Nat → PyResult String) :
    Nat → Nat → String → PyResult (Option String)
  | 0, _, st => if st = "PROCESSING" then .ret none else .ret (some st)
  | fuel + 1, i, st =>
    if st = "PROCESSING" then
      match get_file i with
      | .raise e => .raise e
      | .ret st2 => pollFrom get_file fuel (i + 1) st2
    else .ret (some st)

/-- The function `analyze_video_logic` of `video_api.py`: upload
(errors caught, returned as a payload), poll (a `genai.get_file`
exception propagates uncaught), failed-state check, then the
20-attempt fail-over loop.  `upload` gives the initial file state (or
the upload exception); `.ret none` stands for a never-ending poll. -/
def analyze_video_logic {α : Type} (nKeys : Nat) (upload : PyResult String)
    (get_file : Nat → PyResult String) (pollFuel : Nat)
    (script : Nat → GlobalState → GenOutcome α) (s : GlobalState) :
    PyResult (Option (LoopResult α × GlobalState × List AttemptRecord)) :=
  match upload with
  | .raise e => .ret (some (.errorPayload ("Upload failed: " ++ e), s, []))
  | .ret st0 =>
    match pollFrom get_file pollFuel 0 st0 with
    | .raise e => .raise e
    | .ret none => .ret none
    | .ret (some st) =>
      if st = "FAILED" then
        .ret (some (.errorPayload "Video processing failed on Google servers.", s, []))
      else
        .ret (some (analyzeFrom nKeys script 20 0 s))

/-- Outcome of one request to the Flask route: a response with a
status code and a JSON body, an exception that escaped the handler
(Flask then answers 500 from outside the handler code), or a request
that never completes. -/
inductive HttpOut (α : Type) where
  | response (status : Nat) (body : LoopResult α)
  | unhandled (msg : String)
  | hung
  deriving Repr, DecidableEq

/-- Result of one POST to the video route: the HTTP outcome, the local
disk contents afterwards, and whether `analyze_video_logic` was invoked. -/
structure VideoPostOut (α : Type) where
  out : HttpOut α
  disk : List String
  analyzeCalled : Bool
  deriving Repr, DecidableEq

/-- The POST branch of the route handler `upload_file` of
`video_api.py`.  `req` is the uploaded file part (`none` when the
request has no `file` part, otherwise its filename); `disk` is the set
of local paths present; `analysis` is `analyze_video_logic` applied to
the saved path.  `file.save` adds the path; after a normal return the
handler removes it (the removal itself wrapped in try/except); an
exception escaping `analysis` skips the removal code entirely. -/
def upload_file {α : Type} (req : Option String) (disk : List String)
    (analysis : String → PyResult (Option (LoopResult α × GlobalState × List AttemptRecord))) :
    VideoPostOut α :=
  match req with
  | none => ⟨.response 400 (.errorPayload "No file part"), disk, false⟩
  | some fname =>
    if fname = "" then ⟨.response 400 (.errorPayload "No selected file"), disk, false⟩
    else
      let filepath := "uploads/" ++ fname
      let disk1 := filepath :: disk
      match analysis filepath with
      | .raise m => ⟨.unhandled m, disk1, true⟩
      | .ret none => ⟨.hung, disk1, true⟩
      | .ret (some (r, _, _)) =>
        ⟨.response 200 r, disk1.filter (fun p => p ≠ filepath), true⟩

end VideoApi

namespace AudioApi

open ParkinsonApi

/-- The scaler mean vector `HARDCODED_MEAN` of `audio_api.py`
(exact decimal values, read as rationals). -/
def HARDCODED_MEAN : List ℚ :=
  [-233.23172052589382, 208.9925267215066, -69.96216482119941, -17.912778577080843,
   0.9710564632231081, -39.03255755380845, 13.329869740841552, 9.818470685097866,
   -26.96551459534487, 4.256489320346613, 3.4151535812943536, -15.043113048586278,
   2.5658866759726315, -6.564097938704974, -15.370565869618085, -0.03985351861996725,
   -7.598832500858031, -9.147705943441727, 1.3806584800501736, -7.7013746950285675,
   -6.066502381758076, 1.106044023566357, -7.277421055647133, -3.6192629746611757,
   0.3223162010889238, -6.4588717895222745, -1.1920983581667102, 0.3750919050809232,
   -4.3454433630806495, 1.92989537198842, 1.527214350487639, -2.041173422119379,
   3.4903673890293816, 1.2663787664091892, -0.5768835478103741, 4.842929320660215,
   1.4795529401118914, -0.07482238009816884, 3.32468245362758, -0.48629802894918467]

/-- The scaler scale vector `HARDCODED_SCALE` of `audio_api.py`. -/
def HARDCODED_SCALE : List ℚ :=
  [43.79166776107933, 25.098320242328658, 27.47236977717347, 15.41126449698062,
   15.299606277764694, 14.548644937262765, 14.348055886988748, 11.423489137250344,
   9.417242242201539, 11.034930039304104, 7.485101877508501, 9.069648775752773,
   8.541214502558583, 8.54362532566373, 6.630800975143475, 7.903991772197426,
   6.610877977767781, 6.178388938940979, 7.3237717680231675, 6.243125204829299,
   5.442014671860252, 6.401086915835411, 6.690410390984811, 6.897311014088648,
   8.425743231792376, 8.799747829109947, 8.792460199388715, 9.057045191365566,
   10.163408456892999, 11.949173669053183, 12.049259701192712, 11.471112944674381,
   12.211991570661157, 12.815409320577174, 12.542136505839315, 12.36693117298452,
   12.260388661722384, 12.100840964436408, 11.785625572043537, 11.262541953940874]

/-- One entry of `np.where(HARDCODED_SCALE == 0, 1, HARDCODED_SCALE)`:
a zero scale entry is replaced by 1. -/
def safeScaleEntry (s : ℚ) : ℚ := if s = 0 then 1 else s

/-- The `safe_scale` array of `predict_file`. -/
def safe_scale (scale : List ℚ) : List ℚ := scale.map safeScaleEntry

/-- The elementwise normalization of `predict_file`:
`(features - HARDCODED_MEAN) / safe_scale`. -/
def normalize (features mean scale : List ℚ) : List ℚ :=
  List.zipWith (fun f p => (f - p.1) / p.2) features (mean.zip (safe_scale scale))

/-- A successful prediction body of `predict_file`, or an
`{"error": msg}` payload. -/
inductive APayload where
  | pred (probability : ℚ) (prediction : String) (raw_features : List ℚ)
  | errorBody (msg : String)
  deriving DecidableEq

/-- Which collaborator calls `predict_file` actually made: whether
`extract_mfcc` ran, and whether `model.predict` ran. -/
structure PredictTrace where
  extracted : Bool
  scored : Bool
  deriving Repr, DecidableEq

/-- The label selection of `predict_file`:
`"Parkinson's" if prob > 0.5 else "Healthy"`. -/
def labelOf (prob : ℚ) : String :=
  if prob > 0.5 then "Parkinson\x27s" else "Healthy"

/-- The function `predict_file` of `audio_api.py`.  `model` is the
artifact loaded at startup (`none` when loading failed); `extract` is
the outcome of `extract_mfcc` on the saved file (the un-normalized
40-coefficient MFCC mean vector, or an exception); `score` is the
loaded model applied to the single-row batch, `model.predict(x)[0][0]`.
The `model is None` guard runs before any extraction. -/
def predict_file (model : Option (List ℚ → ℚ)) (extract : PyResult (List ℚ)) :
    PyResult APayload × PredictTrace :=
  match model with
  | none => (.ret (.errorBody "Model not loaded"), ⟨false, false⟩)
  | some score =>
    match extract with
    | .raise e => (.raise e, ⟨true, false⟩)
    | .ret features =>
      let features_normalized := normalize features HARDCODED_MEAN HARDCODED_SCALE
      let prob := score features_normalized
      (.ret (.pred prob (labelOf prob) (features.take 5)), ⟨true, true⟩)

/-- The startup model load of `audio_api.py`: `load_model` in
try/except, the except arm printing and leaving `model = None` so that
the process keeps serving requests instead of exiting. -/
def startup_model {M : Type} (load : PyResult M) : Option M :=
  match load with
  | .ret m => some m
  | .raise _ => none

/-- Result of one POST to the audio `/predict/` route: HTTP status,
JSON body, disk contents afterwards, whether `predict_file` was
invoked, and its collaborator-call trace. -/
structure AudioPostOut where
  status : Nat
  body : APayload
  disk : List String
  called : Bool
  trace : PredictTrace
  deriving DecidableEq

/-- The route handler `predict_endpoint` of `audio_api.py`: write the
upload to `temp_<filename>`, run `predict_file` inside try/except
(an exception answers 500 with an error body), and remove the
temporary file in a `finally` block on every path. -/
def predict_endpoint (model : Option (List ℚ → ℚ)) (filename : String)
    (disk : List String) (extract : PyResult (List ℚ)) : AudioPostOut :=
  let tmp := "temp_" ++ filename
  let disk1 := tmp :: disk
  match predict_file model extract with
  | (.ret r, t) => ⟨200, r, disk1.filter (fun p => p ≠ tmp), true, t⟩
  | (.raise e, t) => ⟨500, .errorBody e, disk1.filter (fun p => p ≠ tmp), true, t⟩

end AudioApi

namespace VideoApi

open ParkinsonApi

theorem switch_key_key (nKeys : Nat) (s : GlobalState) :
    (switch_key nKeys s).current_key_index = (s.current_key_index + 1) % nKeys := rfl

theorem switch_key_model (nKeys : Nat) (s : GlobalState) :
    (switch_key nKeys s).current_model_index = s.current_model_index := rfl

theorem switch_model_model (s : GlobalState) :
    (switch_model s).current_model_index = (s.current_model_index + 1) % MODELS.length := rfl

theorem switch_model_key (s : GlobalState) :
    (switch_model s).current_key_index = s.current_key_index := rfl

theorem switch_model_lt (s : GlobalState) :
    (switch_model s).current_model_index < MODELS.length :=
  Nat.mod_lt _ (by decide)

theorem switch_key_lt (nKeys : Nat) (hk : 0 < nKeys) (s : GlobalState) :
    (switch_key nKeys s).current_key_index < nKeys :=
  Nat.mod_lt _ hk

/-- The round-robin key sequence: starting key, then repeatedly
plus one modulo the pool size. -/
def keySeq (nKeys : Nat) : Nat → Nat → List Nat
  | _, 0 => []
  | k, fuel + 1 => k :: keySeq nKeys ((k + 1) % nKeys) fuel

/-- When every scripted generation outcome is a rate-limit-classified
error, the loop runs through all of its fuel, returns the busy error,
and the keys used across attempts follow the strict round-robin
sequence. -/
theorem analyzeFrom_allRateLimit {α : Type} (nKeys : Nat)
    (script : Nat → GlobalState → GenOutcome α)
    (hs : ∀ n t, ∃ m, script n t = GenOutcome.err m ∧ isRateLimitMsg m = true) :
    ∀ fuel a s, s.current_model_index < MODELS.length →
      (analyzeFrom nKeys script fuel a s).1 = LoopResult.errorPayload serverBusyMsg
      ∧ ((analyzeFrom nKeys script fuel a s).2.2).map AttemptRecord.keyIdx
          = keySeq nKeys s.current_key_index fuel
      ∧ ((analyzeFrom nKeys script fuel a s).2.2).length = fuel := by
  intro fuel
  induction fuel with
  | zero => intro a s _; simp [analyzeFrom, keySeq]
  | succ fuel ih =>
    intro a s hm
    obtain ⟨m, hs1, hs2⟩ := hs a s
    by_cases hcond : a % nKeys = nKeys - 1
    · obtain ⟨ih1, ih2, ih3⟩ := ih (a + 1) (switch_model (switch_key nKeys s)) (switch_model_lt _)
      simp only [analyzeFrom, hm, if_true, hs1, hs2, rateLimitStep, hcond, if_pos rfl]
      simp [ih1, ih2, ih3, keySeq, switch_model_key, switch_key_key]
    · obtain ⟨ih1, ih2, ih3⟩ := ih (a + 1) (switch_key nKeys s)
        (by rw [switch_key_model]; exact hm)
      simp only [analyzeFrom, hm, if_true, hs1, hs2, rateLimitStep, hcond]
      simp [hcond, ih1, ih2, ih3, keySeq, switch_key_key]

/-- A poll that starts in a state other than PROCESSING returns that
state at once, regardless of fuel. -/
theorem pollFrom_notProcessing (g : Nat → PyResult String) (fuel i : Nat)
    (st : String) (h : st ≠ "PROCESSING") :
    pollFrom g fuel i st = PyResult.ret (some st) := by
  cases fuel <;> simp [pollFrom, h]

/-- Every nonempty run of the loop records, as its first attempt, the
loop variable and cursor values it was entered with. -/
theorem analyzeFrom_trace_head {α : Type} (nKeys : Nat)
    (script : Nat → GlobalState → GenOutcome α) (fuel a : Nat) (s : GlobalState) :
    ∃ d rest, (analyzeFrom nKeys script (fuel + 1) a s).2.2
      = ⟨a, s.current_key_index, s.current_model_index, d⟩ :: rest := by
  by_cases hm : s.current_model_index < MODELS.length
  · cases hsc : script a s with
    | ok d => exact ⟨0, [], by simp [analyzeFrom, hm, hsc]⟩
    | err msg =>
      by_cases h1 : isRateLimitMsg msg = true
      · exact ⟨1, (analyzeFrom nKeys script fuel (a + 1) (rateLimitStep nKeys a s)).2.2,
          by simp [analyzeFrom, hm, hsc, h1]⟩
      · by_cases h2 : isNotFoundMsg msg = true
        · exact ⟨0, (analyzeFrom nKeys script fuel (a + 1) (switch_model s)).2.2,
            by simp [analyzeFrom, hm, hsc, h1, h2]⟩
        · exact ⟨0, [], by simp [analyzeFrom, hm, hsc, h1, h2]⟩
  · exact ⟨0, [], by simp [analyzeFrom, hm]⟩

/-- Claim C1, amended: when every generation attempt fails with a
rate-limit-classified error on every credential and every model, the
fail-over loop performs exactly 20 attempts (the hardcoded cap of
`for attempt in range(20)`, regardless of the pool and roster sizes),
rotating the credential index in strict round-robin order, before
returning the generic busy error. -/
theorem C1_busy_cap_theorem {α : Type} (nKeys pollFuel : Nat)
    (get_file : Nat → PyResult String)
    (script : Nat → GlobalState → GenOutcome α) (s : GlobalState)
    (_hk : 0 < nKeys) (hm : s.current_model_index < MODELS.length)
    (hs : ∀ n t, ∃ m, script n t = GenOutcome.err m ∧ isRateLimitMsg m = true) :
    ∃ sf tr,
      analyze_video_logic nKeys (PyResult.ret "ACTIVE") get_file pollFuel script s
        = PyResult.ret (some (LoopResult.errorPayload serverBusyMsg, sf, tr))
      ∧ tr.length = 20
      ∧ tr.map AttemptRecord.keyIdx = keySeq nKeys s.current_key_index 20 := by
  obtain ⟨h1, h2, h3⟩ := analyzeFrom_allRateLimit nKeys script hs 20 0 s hm
  refine ⟨(analyzeFrom nKeys script 20 0 s).2.1, (analyzeFrom nKeys script 20 0 s).2.2,
    ?_, h3, h2⟩
  have hpoll := pollFrom_notProcessing get_file pollFuel 0 "ACTIVE" (by decide)
  simp only [analyze_video_logic, hpoll,
    if_neg (by decide : ¬("ACTIVE" : String) = "FAILED")]
  exact congrArg (fun p => PyResult.ret (some p)) (by rw [← h1])

/-- Witness for C1 at a concrete input: five keys, two models, every
attempt failing with a plain 429 message. -/
theorem C1_busy_cap_witness :
    ∃ sf tr,
      analyze_video_logic (α := Unit) 5 (PyResult.ret "ACTIVE")
          (fun _ => PyResult.ret "ACTIVE") 0 (fun _ _ => GenOutcome.err "429") ⟨0, 0⟩
        = PyResult.ret (some (LoopResult.errorPayload serverBusyMsg, sf, tr))
      ∧ tr.length = 20
      ∧ tr.map AttemptRecord.keyIdx = keySeq 5 0 20 :=
  C1_busy_cap_theorem 5 0 (fun _ => PyResult.ret "ACTIVE") (fun _ _ => GenOutcome.err "429")
    ⟨0, 0⟩ (by decide) (by decide) (fun _ _ => ⟨"429", rfl, by decide⟩)

/-- Counterexample to C1 as stated: with the full five-key pool (pool
size 5) and the two-model roster (roster size 2), an all-429 script
drives the loop through 20 attempts, while pool size times roster size
is 10, so the loop does not perform pool-times-roster attempts. -/
theorem C1_counterexample :
    (analyzeFrom (α := Unit) 5 (fun _ _ => GenOutcome.err "429") 20 0 ⟨0, 0⟩).1
        = LoopResult.errorPayload serverBusyMsg
      ∧ (analyzeFrom (α := Unit) 5 (fun _ _ => GenOutcome.err "429") 20 0 ⟨0, 0⟩).2.2.length = 20
      ∧ 5 * MODELS.length ≠ 20 :=
  ⟨by decide, by decide, by decide⟩

/-- Claim C3, amended: on a rate-limit-classified failure at loop
index `a`, the loop advances the credential index by one modulo the
pool size, advances the model index by one modulo the roster size
exactly when `a % poolSize = poolSize - 1` (a condition keyed off the
global attempt counter, not off which credentials were actually tried
since the last model switch), records a 1-second delay, and proceeds
to the next attempt. -/
theorem C3_rate_limit_step_theorem {α : Type} (nKeys fuel a : Nat) (s : GlobalState)
    (script : Nat → GlobalState → GenOutcome α) (msg : String)
    (_hk : 0 < nKeys) (hm : s.current_model_index < MODELS.length)
    (hsc : script a s = GenOutcome.err msg) (hrl : isRateLimitMsg msg = true) :
    (analyzeFrom nKeys script (fuel + 1) a s
        = ((analyzeFrom nKeys script fuel (a + 1) (rateLimitStep nKeys a s)).1,
           (analyzeFrom nKeys script fuel (a + 1) (rateLimitStep nKeys a s)).2.1,
           ⟨a, s.current_key_index, s.current_model_index, 1⟩
             :: (analyzeFrom nKeys script fuel (a + 1) (rateLimitStep nKeys a s)).2.2))
      ∧ (rateLimitStep nKeys a s).current_key_index = (s.current_key_index + 1) % nKeys
      ∧ (rateLimitStep nKeys a s).current_model_index
          = (if a % nKeys = nKeys - 1 then (s.current_model_index + 1) % MODELS.length
             else s.current_model_index) := by
  refine ⟨by simp [analyzeFrom, hm, hsc, hrl], ?_, ?_⟩ <;>
    by_cases hcond : a % nKeys = nKeys - 1 <;>
      simp [rateLimitStep, hcond, switch_model_key, switch_model_model,
        switch_key_key, switch_key_model]

/-- Witness for C3 at a concrete input: two keys, a 429 at loop
index 1. -/
theorem C3_rate_limit_step_witness :
    (analyzeFrom (α := Unit) 2 (fun n _ => if n = 1 then GenOutcome.err "429" else GenOutcome.ok ())
          (0 + 1) 1 ⟨0, 1⟩
        = ((analyzeFrom 2 (fun n _ => if n = 1 then GenOutcome.err "429" else GenOutcome.ok ())
              0 (1 + 1) (rateLimitStep 2 1 ⟨0, 1⟩)).1,
           (analyzeFrom 2 (fun n _ => if n = 1 then GenOutcome.err "429" else GenOutcome.ok ())
              0 (1 + 1) (rateLimitStep 2 1 ⟨0, 1⟩)).2.1,
           ⟨1, 0, 1, 1⟩
             :: (analyzeFrom 2 (fun n _ => if n = 1 then GenOutcome.err "429" else GenOutcome.ok ())
              0 (1 + 1) (rateLimitStep 2 1 ⟨0, 1⟩)).2.2))
      ∧ (rateLimitStep 2 1 ⟨0, 1⟩).current_key_index = (0 + 1) % 2
      ∧ (rateLimitStep 2 1 ⟨0, 1⟩).current_model_index
          = (if 1 % 2 = 2 - 1 then (1 + 1) % MODELS.length else 1) :=
  C3_rate_limit_step_theorem 2 0 1 ⟨0, 1⟩ _ "429" (by decide) (by decide) rfl (by decide)

/-- Counterexample to C3 as stated: pool of two keys; attempt 0 fails
with a 404 (which switches the model, not the key), attempt 1 fails
with a 429, attempt 2 succeeds.  The trace shows the model index
advancing during the handling of attempt 1 (from 1 back to 0, visible
between the second and third records) although only credential 0 had
been tried since the model switch made while handling attempt 0 — the
pool holds two credentials, so the model advanced before every
credential in the pool had been tried since the last model switch. -/
theorem C3_counterexample :
    (analyzeFrom (α := Unit) 2
        (fun n _ => if n = 0 then GenOutcome.err "404"
          else if n = 1 then GenOutcome.err "429" else GenOutcome.ok ()) 20 0 ⟨0, 0⟩).2.2
        = [⟨0, 0, 0, 0⟩, ⟨1, 0, 1, 1⟩, ⟨2, 1, 0, 0⟩]
      ∧ ((analyzeFrom (α := Unit) 2
        (fun n _ => if n = 0 then GenOutcome.err "404"
          else if n = 1 then GenOutcome.err "429" else GenOutcome.ok ()) 20 0 ⟨0, 0⟩).2.2).map
            AttemptRecord.modelIdx = [0, 1, 0]
      ∧ ((analyzeFrom (α := Unit) 2
        (fun n _ => if n = 0 then GenOutcome.err "404"
          else if n = 1 then GenOutcome.err "429" else GenOutcome.ok ()) 20 0 ⟨0, 0⟩).2.2).map
            AttemptRecord.keyIdx = [0, 0, 1] :=
  ⟨by decide, by decide, by decide⟩

/-- Claim C4: on a failure classified as not-found (and not as
rate-limit, which is tested first), the loop advances the model index
by one modulo the roster size, leaves the credential index unchanged,
records no delay, and the very next attempt runs with the advanced
model index and the same credential index. -/
theorem C4_not_found_step_theorem {α : Type} (nKeys fuel a : Nat) (s : GlobalState)
    (script : Nat → GlobalState → GenOutcome α) (msg : String)
    (hm : s.current_model_index < MODELS.length)
    (hsc : script a s = GenOutcome.err msg)
    (h1 : isRateLimitMsg msg = false) (h2 : isNotFoundMsg msg = true) :
    (analyzeFrom nKeys script (fuel + 1) a s
        = ((analyzeFrom nKeys script fuel (a + 1) (switch_model s)).1,
           (analyzeFrom nKeys script fuel (a + 1) (switch_model s)).2.1,
           ⟨a, s.current_key_index, s.current_model_index, 0⟩
             :: (analyzeFrom nKeys script fuel (a + 1) (switch_model s)).2.2))
      ∧ (switch_model s).current_key_index = s.current_key_index
      ∧ (switch_model s).current_model_index = (s.current_model_index + 1) % MODELS.length
      ∧ ∀ f, fuel = f + 1 → ∃ d rest,
          (analyzeFrom nKeys script (fuel + 1) a s).2.2
            = ⟨a, s.current_key_index, s.current_model_index, 0⟩
              :: ⟨a + 1, s.current_key_index, (s.current_model_index + 1) % MODELS.length, d⟩
              :: rest := by
  have hstep : analyzeFrom nKeys script (fuel + 1) a s
      = ((analyzeFrom nKeys script fuel (a + 1) (switch_model s)).1,
         (analyzeFrom nKeys script fuel (a + 1) (switch_model s)).2.1,
         ⟨a, s.current_key_index, s.current_model_index, 0⟩
           :: (analyzeFrom nKeys script fuel (a + 1) (switch_model s)).2.2) := by
    simp [analyzeFrom, hm, hsc, h1, h2]
  refine ⟨hstep, switch_model_key s, switch_model_model s, ?_⟩
  intro f hf
  subst hf
  obtain ⟨d, rest, hd⟩ := analyzeFrom_trace_head nKeys script f (a + 1) (switch_model s)
  refine ⟨d, rest, ?_⟩
  rw [hstep, hd]
  rfl

/-- Witness for C4 at a concrete input: three keys, a 404 at loop
index 0, two units of fuel remaining so that the next attempt is
observable. -/
theorem C4_not_found_step_witness :
    (analyzeFrom (α := Unit) 3 (fun n _ => if n = 0 then GenOutcome.err "404" else GenOutcome.ok ())
          (1 + 1) 0 ⟨2, 0⟩
        = ((analyzeFrom 3 (fun n _ => if n = 0 then GenOutcome.err "404" else GenOutcome.ok ())
              (0 + 1) (0 + 1) (switch_model ⟨2, 0⟩)).1,
           (analyzeFrom 3 (fun n _ => if n = 0 then GenOutcome.err "404" else GenOutcome.ok ())
              (0 + 1) (0 + 1) (switch_model ⟨2, 0⟩)).2.1,
           ⟨0, 2, 0, 0⟩
             :: (analyzeFrom 3 (fun n _ => if n = 0 then GenOutcome.err "404" else GenOutcome.ok ())
              (0 + 1) (0 + 1) (switch_model ⟨2, 0⟩)).2.2))
      ∧ (switch_model ⟨2, 0⟩).current_key_index = 2
      ∧ (switch_model ⟨2, 0⟩).current_model_index = (0 + 1) % MODELS.length
      ∧ ∀ f, 0 + 1 = f + 1 → ∃ d rest,
          (analyzeFrom (α := Unit) 3
              (fun n _ => if n = 0 then GenOutcome.err "404" else GenOutcome.ok ())
              (0 + 1 + 1) 0 ⟨2, 0⟩).2.2
            = ⟨0, 2, 0, 0⟩ :: ⟨0 + 1, 2, (0 + 1) % MODELS.length, d⟩ :: rest :=
  C4_not_found_step_theorem 3 (0 + 1) 0 ⟨2, 0⟩ _ "404" (by decide) rfl (by decide) (by decide)

/-- Claim C5: on a failure whose message matches neither the
rate-limit substrings nor the not-found substrings, the loop returns
the error payload carrying that message immediately: the trace from
this attempt on is just this attempt, and the cursors are left exactly
as they were. -/
theorem C5_other_error_abort_theorem {α : Type} (nKeys fuel a : Nat) (s : GlobalState)
    (script : Nat → GlobalState → GenOutcome α) (msg : String)
    (hm : s.current_model_index < MODELS.length)
    (hsc : script a s = GenOutcome.err msg)
    (h1 : isRateLimitMsg msg = false) (h2 : isNotFoundMsg msg = false) :
    analyzeFrom nKeys script (fuel + 1) a s
      = (LoopResult.errorPayload ("Analysis error: " ++ msg), s,
         [⟨a, s.current_key_index, s.current_model_index, 0⟩]) := by
  simp [analyzeFrom, hm, hsc, h1, h2]

/-- Witness for C5 at a concrete input: the non-matching message
"invalid argument" aborts the loop on its first attempt with the
cursors untouched. -/
theorem C5_other_error_abort_witness :
    analyzeFrom (α := Unit) 5 (fun _ _ => GenOutcome.err "invalid argument") (19 + 1) 0 ⟨3, 1⟩
      = (LoopResult.errorPayload ("Analysis error: " ++ "invalid argument"), ⟨3, 1⟩,
         [⟨0, 3, 1, 0⟩]) :=
  C5_other_error_abort_theorem 5 19 0 ⟨3, 1⟩ _ "invalid argument"
    (by decide) rfl (by decide) (by decide)

/-- Claim C9: starting from in-range cursors, every state reached by
the fail-over loop keeps both cursors in range — the final cursor
state is in range and every attempt indexed the key pool and the model
roster at in-range positions — because every mutation is a modular
increment. -/
theorem C9_cursor_invariant_theorem {α : Type} (nKeys : Nat)
    (script : Nat → GlobalState → GenOutcome α) (fuel a : Nat) (s : GlobalState)
    (hk : 0 < nKeys) (hkey : s.current_key_index < nKeys)
    (hmod : s.current_model_index < MODELS.length) :
    ((analyzeFrom nKeys script fuel a s).2.1.current_key_index < nKeys
      ∧ (analyzeFrom nKeys script fuel a s).2.1.current_model_index < MODELS.length)
    ∧ ∀ r ∈ (analyzeFrom nKeys script fuel a s).2.2,
        r.keyIdx < nKeys ∧ r.modelIdx < MODELS.length := by
  induction fuel generalizing a s with
  | zero => exact ⟨⟨hkey, hmod⟩, by simp [analyzeFrom]⟩
  | succ fuel ih =>
    cases hsc : script a s with
    | ok d =>
      have hred : analyzeFrom nKeys script (fuel + 1) a s
          = (LoopResult.ok d, s, [⟨a, s.current_key_index, s.current_model_index, 0⟩]) := by
        simp [analyzeFrom, hmod, hsc]
      refine ⟨⟨?_, ?_⟩, ?_⟩
      · rw [hred]; exact hkey
      · rw [hred]; exact hmod
      · intro r hr
        rw [hred] at hr
        simp only [List.mem_singleton] at hr
        subst hr
        exact ⟨hkey, hmod⟩
    | err msg =>
      by_cases h1 : isRateLimitMsg msg = true
      · have hkey2 : (rateLimitStep nKeys a s).current_key_index < nKeys := by
          by_cases hcond : a % nKeys = nKeys - 1 <;>
            simp [rateLimitStep, hcond, switch_model_key, switch_key_key, Nat.mod_lt _ hk]
        have hmod2 : (rateLimitStep nKeys a s).current_model_index < MODELS.length := by
          by_cases hcond : a % nKeys = nKeys - 1
          · simp only [rateLimitStep, hcond, if_pos rfl]
            exact switch_model_lt _
          · simpa [rateLimitStep, hcond, switch_key_model] using hmod
        have hred : analyzeFrom nKeys script (fuel + 1) a s
            = ((analyzeFrom nKeys script fuel (a + 1) (rateLimitStep nKeys a s)).1,
               (analyzeFrom nKeys script fuel (a + 1) (rateLimitStep nKeys a s)).2.1,
               ⟨a, s.current_key_index, s.current_model_index, 1⟩
                 :: (analyzeFrom nKeys script fuel (a + 1) (rateLimitStep nKeys a s)).2.2) := by
          simp [analyzeFrom, hmod, hsc, h1]
        obtain ⟨ihState, ihTrace⟩ := ih (a + 1) (rateLimitStep nKeys a s) hkey2 hmod2
        refine ⟨⟨?_, ?_⟩, ?_⟩
        · rw [hred]; exact ihState.1
        · rw [hred]; exact ihState.2
        · intro r hr
          rw [hred] at hr
          simp only [List.mem_cons] at hr
          rcases hr with hr | hr
          · subst hr; exact ⟨hkey, hmod⟩
          · exact ihTrace r hr
      · by_cases h2 : isNotFoundMsg msg = true
        · have hred : analyzeFrom nKeys script (fuel + 1) a s
              = ((analyzeFrom nKeys script fuel (a + 1) (switch_model s)).1,
                 (analyzeFrom nKeys script fuel (a + 1) (switch_model s)).2.1,
                 ⟨a, s.current_key_index, s.current_model_index, 0⟩
                   :: (analyzeFrom nKeys script fuel (a + 1) (switch_model s)).2.2) := by
            simp [analyzeFrom, hmod, hsc, h1, h2]
          obtain ⟨ihState, ihTrace⟩ := ih (a + 1) (switch_model s)
            (by rw [switch_model_key]; exact hkey) (switch_model_lt s)
          refine ⟨⟨?_, ?_⟩, ?_⟩
          · rw [hred]; exact ihState.1
          · rw [hred]; exact ihState.2
          · intro r hr
            rw [hred] at hr
            simp only [List.mem_cons] at hr
            rcases hr with hr | hr
            · subst hr; exact ⟨hkey, hmod⟩
            · exact ihTrace r hr
        · have hred : analyzeFrom nKeys script (fuel + 1) a s
              = (LoopResult.errorPayload ("Analysis error: " ++ msg), s,
                 [⟨a, s.current_key_index, s.current_model_index, 0⟩]) := by
            simp [analyzeFrom, hmod, hsc, h1, h2]
          refine ⟨⟨?_, ?_⟩, ?_⟩
          · rw [hred]; exact hkey
          · rw [hred]; exact hmod
          · intro r hr
            rw [hred] at hr
            simp only [List.mem_singleton] at hr
            subst hr
            exact ⟨hkey, hmod⟩

/-- Witness for C9 at a concrete input: one key, the all-429 script,
the full 20 units of fuel, cursors starting at zero. -/
theorem C9_cursor_invariant_witness :
    (((analyzeFrom (α := Unit) 1 (fun _ _ => GenOutcome.err "429") 20 0
          ⟨0, 0⟩).2.1.current_key_index < 1
      ∧ (analyzeFrom (α := Unit) 1 (fun _ _ => GenOutcome.err "429") 20 0
          ⟨0, 0⟩).2.1.current_model_index < MODELS.length)
    ∧ ∀ r ∈ (analyzeFrom (α := Unit) 1 (fun _ _ => GenOutcome.err "429") 20 0 ⟨0, 0⟩).2.2,
        r.keyIdx < 1 ∧ r.modelIdx < MODELS.length) :=
  C9_cursor_invariant_theorem 1 (fun _ _ => GenOutcome.err "429") 20 0 ⟨0, 0⟩
    (by decide) (by decide) (by decide)

end VideoApi

namespace AudioApi

open ParkinsonApi

theorem safeScaleEntry_ne_zero (s : ℚ) : safeScaleEntry s ≠ 0 := by
  by_cases h : s = 0 <;> simp [safeScaleEntry, h]

theorem normalize_length_forty (features : List ℚ) (hlen : features.length = 40) :
    (normalize features HARDCODED_MEAN HARDCODED_SCALE).length = 40 := by
  have h1 : HARDCODED_MEAN.length = 40 := by decide
  have h2 : HARDCODED_SCALE.length = 40 := by decide
  simp [normalize, List.length_zipWith, List.length_zip, safe_scale, hlen, h1, h2]

/-- Claim C7: when the model artifact fails to load at startup, the
startup guard leaves `model = None` instead of exiting, and every
request to the audio endpoint is still answered — with the
"Model not loaded" error payload — without running feature extraction
or the model scoring function. -/
theorem C7_model_none_theorem (loadErr filename : String) (disk : List String)
    (extract : PyResult (List ℚ)) :
    startup_model (PyResult.raise loadErr) = (none : Option (List ℚ → ℚ))
    ∧ (predict_endpoint none filename disk extract).body = APayload.errorBody "Model not loaded"
    ∧ (predict_endpoint none filename disk extract).status = 200
    ∧ (predict_endpoint none filename disk extract).trace = ⟨false, false⟩ :=
  ⟨rfl, rfl, rfl, rfl⟩

/-- Claim C8: every entry of `safe_scale` is nonzero because a zero
scale entry is replaced by 1 before the elementwise division, so the
normalization never divides by zero: multiplying a normalized entry
back by its safe divisor recovers features minus mean exactly (in this
exact-arithmetic embedding, the division of finite values by a nonzero
divisor is the statement that no infinite or NaN value arises from the
division); and a 40-entry feature vector normalizes to 40 entries. -/
theorem C8_safe_scale_theorem :
    (∀ scale : List ℚ, ∀ x ∈ safe_scale scale, x ≠ 0)
    ∧ (∀ s : ℚ, safeScaleEntry s ≠ 0)
    ∧ (∀ f m s : ℚ, (f - m) / safeScaleEntry s * safeScaleEntry s = f - m)
    ∧ (∀ features : List ℚ, features.length = 40 →
        (normalize features HARDCODED_MEAN HARDCODED_SCALE).length = 40) := by
  refine ⟨?_, safeScaleEntry_ne_zero, ?_, normalize_length_forty⟩
  · intro scale x hx
    obtain ⟨s, _, rfl⟩ := List.mem_map.mp hx
    exact safeScaleEntry_ne_zero s
  · intro f m s
    exact div_mul_cancel₀ _ (safeScaleEntry_ne_zero s)

/-- Witness for C8 at concrete inputs: the zero scale entry becomes 1,
which is nonzero, and the all-zero 40-entry feature vector normalizes
to 40 entries. -/
theorem C8_safe_scale_witness :
    (1 : ℚ) ≠ 0
    ∧ (normalize (List.replicate 40 (0 : ℚ)) HARDCODED_MEAN HARDCODED_SCALE).length = 40 :=
  ⟨C8_safe_scale_theorem.1 [0] 1 (by simp [safe_scale, safeScaleEntry]),
   C8_safe_scale_theorem.2.2.2 (List.replicate 40 0) (by simp)⟩

/-- Claim C10: a successful audio prediction carries, as
`raw_features`, exactly the first five entries of the un-normalized
feature vector (five entries, not the forty of the full vector, and
taken before normalization); the value fed to the model is the full
40-entry normalized row; and the label is the Parkinson label exactly
when the probability strictly exceeds 0.5 — probability exactly 0.5
yields "Healthy". -/
theorem C10_prediction_shape_theorem (score : List ℚ → ℚ) (features : List ℚ)
    (hlen : features.length = 40) :
    predict_file (some score) (PyResult.ret features)
      = (PyResult.ret (APayload.pred
            (score (normalize features HARDCODED_MEAN HARDCODED_SCALE))
            (labelOf (score (normalize features HARDCODED_MEAN HARDCODED_SCALE)))
            (features.take 5)),
         ⟨true, true⟩)
    ∧ (features.take 5).length = 5
    ∧ (normalize features HARDCODED_MEAN HARDCODED_SCALE).length = 40
    ∧ (∀ p : ℚ, labelOf p = "Parkinson\x27s" ↔ 0.5 < p)
    ∧ labelOf 0.5 = "Healthy" := by
  refine ⟨rfl, ?_, normalize_length_forty features hlen, ?_, ?_⟩
  · simp [List.length_take, hlen]
  · intro p
    by_cases h : 0.5 < p
    · simp [labelOf, h]
    · have hne : ¬("Healthy" : String) = "Parkinson\x27s" := by decide
      simp [labelOf, h, hne]
  · norm_num [labelOf]

/-- Witness for C10 at a concrete input: the all-zero 40-entry feature
vector with a constant-zero scoring function. -/
theorem C10_prediction_shape_witness :
    (predict_file (some (fun _ => 0)) (PyResult.ret (List.replicate 40 (0 : ℚ)))
      = (PyResult.ret (APayload.pred
            ((fun _ => (0 : ℚ)) (normalize (List.replicate 40 (0 : ℚ)) HARDCODED_MEAN HARDCODED_SCALE))
            (labelOf ((fun _ => (0 : ℚ)) (normalize (List.replicate 40 (0 : ℚ)) HARDCODED_MEAN HARDCODED_SCALE)))
            ((List.replicate 40 (0 : ℚ)).take 5)),
         ⟨true, true⟩)
    ∧ ((List.replicate 40 (0 : ℚ)).take 5).length = 5
    ∧ (normalize (List.replicate 40 (0 : ℚ)) HARDCODED_MEAN HARDCODED_SCALE).length = 40
    ∧ (∀ p : ℚ, labelOf p = "Parkinson\x27s" ↔ 0.5 < p)
    ∧ labelOf 0.5 = "Healthy") :=
  C10_prediction_shape_theorem (fun _ => 0) (List.replicate 40 0) (by simp)

end AudioApi

open ParkinsonApi VideoApi AudioApi

/-- Claim C2, amended: the audio endpoint removes its temporary file
on every exit path, success or failure (its removal sits in a
`finally` block); the video endpoint removes the saved upload whenever
`analyze_video_logic` returns a value (parsed data or an error
payload), but when an exception escapes `analyze_video_logic` — for
example a `genai.get_file` failure during the processing poll — the
handler skips the removal code and the file remains on disk. -/
theorem C2_cleanup_theorem {α : Type} (model : Option (List ℚ → ℚ))
    (filename : String) (adisk : List String) (extract : PyResult (List ℚ))
    (fname : String) (vdisk : List String)
    (analysis : String → PyResult (Option (LoopResult α × GlobalState × List AttemptRecord)))
    (res : LoopResult α × GlobalState × List AttemptRecord) :
    ("temp_" ++ filename) ∉ (predict_endpoint model filename adisk extract).disk
    ∧ (fname ≠ "" → analysis ("uploads/" ++ fname) = PyResult.ret (some res) →
        ("uploads/" ++ fname) ∉ (upload_file (some fname) vdisk analysis).disk) := by
  constructor
  · rcases hpf : predict_file model extract with ⟨pr, t⟩
    cases pr <;> simp [predict_endpoint, hpf, List.mem_filter]
  · intro hf hres
    obtain ⟨r1, r2, r3⟩ := res
    simp [upload_file, hf, hres, List.mem_filter]

/-- Witness for C2 at concrete inputs: an audio request whose
processing raises, and a video request whose analysis returns an
error payload; in both cases the local file is absent afterwards. -/
theorem C2_cleanup_witness :
    ("temp_" ++ "a.wav")
        ∉ (predict_endpoint (some (fun _ => 0)) "a.wav" [] (PyResult.raise "boom")).disk
    ∧ ("uploads/" ++ "v.mp4")
        ∉ (upload_file (α := Unit) (some "v.mp4") []
            (fun _ => PyResult.ret (some (LoopResult.errorPayload "x", ⟨0, 0⟩, [])))).disk :=
  ⟨(C2_cleanup_theorem (α := Unit) (some (fun _ => 0)) "a.wav" [] (PyResult.raise "boom") "v.mp4" []
      (fun _ => PyResult.ret (some (LoopResult.errorPayload "x", ⟨0, 0⟩, [])))
      (LoopResult.errorPayload "x", ⟨0, 0⟩, [])).1,
   (C2_cleanup_theorem (α := Unit) (some (fun _ => 0)) "a.wav" [] (PyResult.raise "boom") "v.mp4" []
      (fun _ => PyResult.ret (some (LoopResult.errorPayload "x", ⟨0, 0⟩, [])))
      (LoopResult.errorPayload "x", ⟨0, 0⟩, [])).2 (by decide) rfl⟩

/-- Counterexample to C2 as stated: a video request whose poll-phase
`genai.get_file` call raises.  The exception escapes
`analyze_video_logic`, the handler never reaches its removal code, and
the saved upload is still on disk afterwards — so the uploaded file is
not absent on every exit path. -/
theorem C2_counterexample :
    (upload_file (α := Unit) (some "v.mp4") []
        (fun _ => analyze_video_logic 1 (PyResult.ret "PROCESSING")
          (fun _ => PyResult.raise "network error") 5 (fun _ _ => GenOutcome.ok ()) ⟨0, 0⟩)).disk
      = ["uploads/v.mp4"]
    ∧ (upload_file (α := Unit) (some "v.mp4") []
        (fun _ => analyze_video_logic 1 (PyResult.ret "PROCESSING")
          (fun _ => PyResult.raise "network error") 5 (fun _ _ => GenOutcome.ok ()) ⟨0, 0⟩)).out
      = HttpOut.unhandled "network error" :=
  ⟨by decide, by decide⟩

/-- Claim C6, amended: on the video endpoint, a POST without a file
part or with an empty filename is answered 400 with an error body,
without invoking `analyze_video_logic` and without touching the disk;
the audio endpoint performs no such handler-side check — a request
reaching its handler with an empty filename proceeds into
`predict_file`, and its responses carry status 200 or 500, never 400
(a POST with no file part at all never reaches this handler: the
framework rejects it during parameter validation). -/
theorem C6_malformed_upload_theorem {α : Type} (disk : List String)
    (analysis : String → PyResult (Option (LoopResult α × GlobalState × List AttemptRecord)))
    (model : Option (List ℚ → ℚ)) (adisk : List String) (extract : PyResult (List ℚ)) :
    upload_file none disk analysis
      = ⟨HttpOut.response 400 (LoopResult.errorPayload "No file part"), disk, false⟩
    ∧ upload_file (some "") disk analysis
      = ⟨HttpOut.response 400 (LoopResult.errorPayload "No selected file"), disk, false⟩
    ∧ (predict_endpoint model "" adisk extract).called = true
    ∧ ((predict_endpoint model "" adisk extract).status = 200
        ∨ (predict_endpoint model "" adisk extract).status = 500) := by
  refine ⟨rfl, rfl, ?_, ?_⟩
  · rcases hpf : predict_file model extract with ⟨pr, t⟩
    cases pr <;> simp [predict_endpoint, hpf]
  · rcases hpf : predict_file model extract with ⟨pr, t⟩
    cases pr
    · exact Or.inl (by simp [predict_endpoint, hpf])
    · exact Or.inr (by simp [predict_endpoint, hpf])

/-- Counterexample to C6 as stated: a request that reaches the audio
handler with an empty filename is not answered 400 — the handler
saves the file, invokes `predict_file` (whose extraction here raises),
and answers 500. -/
theorem C6_counterexample :
    (predict_endpoint (some (fun _ => 0)) "" [] (PyResult.raise "boom")).status = 500
    ∧ (predict_endpoint (some (fun _ => 0)) "" [] (PyResult.raise "boom")).called = true
    ∧ (predict_endpoint (some (fun _ => 0)) "" [] (PyResult.raise "boom")).trace.extracted = true :=
  ⟨rfl, rfl, rfl⟩
